import Mathlib

/-!
Shallow embedding of the websub-hub core (hub.go): the subscription
registry, the intent-verification handshake, the subscribe/unsubscribe
handler and the publish fan-out, together with the HMAC-SHA256 payload
signing used for delivery.

Network effects are modelled as oracle parameters: the outcome of each
outbound call (the verification GET, each delivery POST) is an explicit
input, and the randomly generated challenge token is an explicit input,
so every handler is a pure function from request data, registry state and
network outcomes to a response and a new registry state.

Machine integers: Go int64 values (time.Duration nanoseconds) are
modelled as Int with an explicit two-complement wrap (wrap64) exactly
where the Go code can overflow.
-/

/-! ## 32-bit word helpers and SHA-256 (FIPS 180-4), as used via crypto/sha256 -/

def add32 (a b : Nat) : Nat := (a + b) % 4294967296

def rotr32 (x n : Nat) : Nat := ((x >>> n) ||| (x <<< (32 - n))) % 4294967296

def shaCh (x y z : Nat) : Nat := (x &&& y) ^^^ ((x ^^^ 4294967295) &&& z)

def shaMaj (x y z : Nat) : Nat := (x &&& y) ^^^ (x &&& z) ^^^ (y &&& z)

def bigSigma0 (x : Nat) : Nat := (rotr32 x 2) ^^^ (rotr32 x 13) ^^^ (rotr32 x 22)

def bigSigma1 (x : Nat) : Nat := (rotr32 x 6) ^^^ (rotr32 x 11) ^^^ (rotr32 x 25)

def smallSigma0 (x : Nat) : Nat := (rotr32 x 7) ^^^ (rotr32 x 18) ^^^ (x >>> 3)

def smallSigma1 (x : Nat) : Nat := (rotr32 x 17) ^^^ (rotr32 x 19) ^^^ (x >>> 10)

def shaK : List Nat :=
  [1116352408, 1899447441, 3049323471, 3921009573, 961987163,
   1508970993, 2453635748, 2870763221, 3624381080, 310598401,
   607225278, 1426881987, 1925078388, 2162078206, 2614888103,
   3248222580, 3835390401, 4022224774, 264347078, 604807628,
   770255983, 1249150122, 1555081692, 1996064986, 2554220882,
   2821834349, 2952996808, 3210313671, 3336571891, 3584528711,
   113926993, 338241895, 666307205, 773529912, 1294757372,
   1396182291, 1695183700, 1986661051, 2177026350, 2456956037,
   2730485921, 2820302411, 3259730800, 3345764771, 3516065817,
   3600352804, 4094571909, 275423344, 430227734, 506948616,
   659060556, 883997877, 958139571, 1322822218, 1537002063,
   1747873779, 1955562222, 2024104815, 2227730452, 2361852424,
   2428436474, 2756734187, 3204031479, 3329325298]

def shaH0 : List Nat :=
  [1779033703, 3144134277, 1013904242, 2773480762,
   1359893119, 2600822924, 528734635, 1541459225]

def toBytesBE : Nat → Nat → List Nat
  | 0, _ => []
  | n + 1, v => toBytesBE n (v / 256) ++ [v % 256]

def padMessage (msg : List Nat) : List Nat :=
  msg ++ [128] ++ List.replicate ((55 - (msg.length % 64) + 64) % 64) 0
      ++ toBytesBE 8 (msg.length * 8)

def bytesToWords : List Nat → List Nat
  | b0 :: b1 :: b2 :: b3 :: rest =>
      (((b0 * 256 + b1) * 256 + b2) * 256 + b3) :: bytesToWords rest
  | _ => []

def chunk64Aux : Nat → List Nat → List (List Nat)
  | 0, _ => []
  | _, [] => []
  | fuel + 1, l => l.take 64 :: chunk64Aux fuel (l.drop 64)

def chunk64 (l : List Nat) : List (List Nat) := chunk64Aux l.length l

def extendW (ws : List Nat) : Nat → List Nat
  | 0 => ws
  | k + 1 =>
    let prev := extendW ws k
    let i := prev.length
    prev ++ [add32 (add32 (smallSigma1 (prev.getD (i - 2) 0)) (prev.getD (i - 7) 0))
                   (add32 (smallSigma0 (prev.getD (i - 15) 0)) (prev.getD (i - 16) 0))]

structure ShaState where
  a : Nat
  b : Nat
  c : Nat
  d : Nat
  e : Nat
  f : Nat
  g : Nat
  h : Nat
deriving DecidableEq

def compressStep (s : ShaState) (kw : Nat × Nat) : ShaState :=
  let t1 := add32 (add32 (add32 s.h (bigSigma1 s.e)) (add32 (shaCh s.e s.f s.g) kw.1)) kw.2
  let t2 := add32 (bigSigma0 s.a) (shaMaj s.a s.b s.c)
  ⟨add32 t1 t2, s.a, s.b, s.c, add32 s.d t1, s.e, s.f, s.g⟩

def processBlock (hs : List Nat) (block : List Nat) : List Nat :=
  let w := extendW (bytesToWords block) 48
  let init : ShaState := ⟨hs.getD 0 0, hs.getD 1 0, hs.getD 2 0, hs.getD 3 0,
                          hs.getD 4 0, hs.getD 5 0, hs.getD 6 0, hs.getD 7 0⟩
  let fin := (w.zip shaK).foldl compressStep init
  [add32 (hs.getD 0 0) fin.a, add32 (hs.getD 1 0) fin.b, add32 (hs.getD 2 0) fin.c,
   add32 (hs.getD 3 0) fin.d, add32 (hs.getD 4 0) fin.e, add32 (hs.getD 5 0) fin.f,
   add32 (hs.getD 6 0) fin.g, add32 (hs.getD 7 0) fin.h]

/-- SHA-256 of a byte sequence (bytes as Nat below 256), big-endian digest. -/
def sha256 (msg : List Nat) : List Nat :=
  (((chunk64 (padMessage msg)).foldl processBlock shaH0).map (toBytesBE 4)).flatten

/-- HMAC-SHA256 with block size 64, keyed as in crypto/hmac. -/
def hmacSHA256 (key msg : List Nat) : List Nat :=
  let k0 := if key.length > 64 then sha256 key else key
  let k := k0 ++ List.replicate (64 - k0.length) 0
  sha256 ((k.map fun b => b ^^^ 92) ++ sha256 ((k.map fun b => b ^^^ 54) ++ msg))

/-- Lowercase hex digit, as produced by encoding/hex. -/
def hexDigitChar (n : Nat) : Char := if n < 10 then Char.ofNat (48 + n) else Char.ofNat (87 + n)

/-- Lowercase hex encoding of a byte sequence (encoding/hex EncodeToString). -/
def hexEncode (bs : List Nat) : String :=
  String.mk ((bs.map fun b => [hexDigitChar (b / 16), hexDigitChar (b % 16)]).flatten)

/-- UTF-8 bytes of one character. -/
def charBytes (c : Char) : List Nat := (String.utf8EncodeChar c).map UInt8.toNat

/-- UTF-8 bytes of a string, matching the Go conversion from string to a byte slice. -/
def strBytes (s : String) : List Nat := (s.data.map charBytes).flatten

/-! ## Go integer and stdlib models -/

/-- Two-complement wrap into the signed 64-bit range, the behavior of Go
int64 multiplication where hub.go notes a possible overflow. -/
def wrap64 (x : Int) : Int :=
  (x + 9223372036854775808) % 18446744073709551616 - 9223372036854775808

/-- Decimal digit value of a character, if it is one. -/
def digitVal (c : Char) : Option Nat :=
  if 48 ≤ c.toNat ∧ c.toNat ≤ 57 then some (c.toNat - 48) else none

/-- Accumulate a digit list into a number; none if a non-digit appears or
the list is empty. -/
def parseDigits (cs : List Char) : Option Nat :=
  if cs = [] then none
  else cs.foldl (fun acc c =>
    match acc, digitVal c with
    | some a, some d => some (a * 10 + d)
    | _, _ => none) (some 0)

/-- Model of Go strconv.Atoi on a 64-bit platform: optional sign, decimal
digits only, error when empty, malformed, or outside the int64 range. -/
def atoi (s : String) : Option Int :=
  let p : Bool × List Char :=
    match s.data with
    | '+' :: rest => (false, rest)
    | '-' :: rest => (true, rest)
    | cs => (false, cs)
  match parseDigits p.2 with
  | none => none
  | some v =>
    let i : Int := if p.1 then -(v : Int) else (v : Int)
    if i < -9223372036854775808 ∨ 9223372036854775807 < i then none else some i

/-- Parsed URL. Go url.Parse normalizes some inputs; for the URLs the
claims quantify over, the serialized form String() is the parsed text
itself, so the model keeps the raw string. -/
structure GoURL where
  raw : String
deriving DecidableEq

/-- The String() serialization of a parsed URL (identity in this model). -/
def GoURL.toString (u : GoURL) : String := u.raw

/-- Whether the string contains an ASCII control byte, the check
stringContainsCTLByte performed by Go url.Parse. -/
def containsCTL (s : String) : Bool :=
  s.data.any fun c => c.toNat < 32 || c.toNat == 127

/-- Whether the string begins with a colon; Go getScheme then reports a
missing protocol scheme. -/
def startsWithColon (s : String) : Bool :=
  match s.data with
  | [] => false
  | c :: _ => c == ':'

/-- Model of Go net/url Parse at the precision the claims need: it fails
on a control character or on a leading colon (missing protocol scheme)
and succeeds otherwise; in particular the empty string parses
successfully. Rarer failure modes (bad percent escapes, bad host bytes)
are not modelled, so the model accepts a superset of what Go accepts. -/
def urlParse (s : String) : Option GoURL :=
  if containsCTL s then none
  else if startsWithColon s then none
  else some ⟨s⟩

/-! ## Data model: Subscription and the registry map -/

/-- One record per active callback registration (hub.go Subscription).
Times and durations are int64 nanoseconds, modelled as Int with wrapping
applied where Go arithmetic wraps. -/
structure Subscription where
  callbackURL : GoURL
  topic : String
  leaseDeadline : Int
  lease : Int
  secret : List Nat
deriving DecidableEq

/-- The subscriptions map of the Hub: callback URL string to
Subscription, with at most one entry per key. -/
def Registry := List (String × Subscription)

instance : DecidableEq Registry :=
  inferInstanceAs (DecidableEq (List (String × Subscription)))

/-- Go map assignment m[k] = v: replace the entry for k if present,
otherwise add one. -/
def mapInsert : Registry → String → Subscription → Registry
  | [], k, v => [(k, v)]
  | (k1, v1) :: rest, k, v =>
      if k1 = k then (k, v) :: rest else (k1, v1) :: mapInsert rest k v

/-- Go delete(m, k): remove the entry for k; no-op when absent. -/
def mapErase : Registry → String → Registry
  | [], _ => []
  | (k1, v1) :: rest, k =>
      if k1 = k then mapErase rest k else (k1, v1) :: mapErase rest k

/-- Go map read m[k]. -/
def mapLookup : Registry → String → Option Subscription
  | [], _ => none
  | (k1, v1) :: rest, k => if k1 = k then some v1 else mapLookup rest k

/-- Number of entries stored under a key. -/
def countKey : Registry → String → Nat
  | [], _ => 0
  | (k1, _) :: rest, k => (if k1 = k then 1 else 0) + countKey rest k

/-- Well-formedness of the registry: keys are pairwise distinct, the
invariant every Go map holds by construction. -/
def RegistryWF (m : Registry) : Prop := (m.map Prod.fst).Nodup

instance (m : Registry) : Decidable (RegistryWF m) :=
  inferInstanceAs (Decidable ((m.map Prod.fst).Nodup))

/-! ## Intent verification (hub.go verifySubscriptionIntent) -/

/-- Outcome of the single outbound verification round trip, as seen by
verifySubscriptionIntent: building the GET request can fail, sending it
can fail, reading the response body can fail, or a body is read. -/
inductive VerifyNet where
  | reqError
  | transportError
  | readError
  | body (bytes : List Nat)
deriving DecidableEq

/-- hub.go verifySubscriptionIntent, from the point where the challenge
token has been generated: it issues exactly one GET carrying the
challenge and succeeds exactly when the whole response body equals the
challenge token; every failed step is returned as an error, with no
retry. The generated token and the network outcome are oracle inputs. -/
def verifySubscriptionIntent (challenge : String) (net : VerifyNet) : Except String Unit :=
  match net with
  | .reqError => .error "invalid verification request"
  | .transportError => .error "verification request failed"
  | .readError => .error "could not read challenge echo"
  | .body b => if strBytes challenge = b then .ok () else .error "invalid challenge echo"

/-- Whether an Except value is the success case. -/
def exceptOk : Except String Unit → Bool
  | .ok _ => true
  | .error _ => false

instance : DecidableEq (Except String Unit) := fun a b =>
  match a, b with
  | .ok (), .ok () => isTrue rfl
  | .ok _, .error _ => isFalse (by simp)
  | .error _, .ok _ => isFalse (by simp)
  | .error e1, .error e2 => if h : e1 = e2 then isTrue (by rw [h]) else isFalse (by simp [h])

/-! ## Subscribe / unsubscribe handler (hub.go handleSubscribe) -/

def ModeSubscribe : String := "subscribe"

def ModeUnsubscribe : String := "unsubscribe"

/-- The decoded form fields of a subscribe/unsubscribe request; a field
absent from the form decodes to the empty string (Go PostFormValue). -/
structure SubscribeForm where
  callback : String
  mode : String
  topic : String
  lease : String
  secret : String
deriving DecidableEq

/-- The response written by handleSubscribe, one case per exit path. -/
inductive SubscribeOutcome where
  | invalidMode
  | missingTopic
  | badCallback
  | badLease
  | verifyFailed
  | accepted
deriving DecidableEq

/-- HTTP status code written for each handleSubscribe exit path. -/
def SubscribeOutcome.statusCode : SubscribeOutcome → Nat
  | .invalidMode => 400
  | .missingTopic => 400
  | .badCallback => 400
  | .badLease => 400
  | .verifyFailed => 500
  | .accepted => 202

/-- The lease duration handleSubscribe computes from the lease_seconds
field: one hour when the field is absent, otherwise Atoi then
multiplication by time.Second in wrapping int64 arithmetic; none when
Atoi fails. -/
def leaseDurationOf (lease : String) : Option Int :=
  if lease = "" then some 3600000000000
  else
    match atoi lease with
    | none => none
    | some n => some (wrap64 (n * 1000000000))

/-- Whether a request passes all four input validation checks of
handleSubscribe, in the order the code performs them. -/
def validForm (f : SubscribeForm) : Bool :=
  (f.mode == ModeSubscribe || f.mode == ModeUnsubscribe)
    && f.topic != ""
    && (urlParse f.callback).isSome
    && (leaseDurationOf f.lease).isSome

/-- hub.go handleSubscribe after form decoding: validates mode, topic,
callback URL and lease in order, builds the candidate Subscription,
verifies intent, and only then mutates the registry (insert on
subscribe, delete on unsubscribe), answering 202 with an empty body.
The wall clock, the generated challenge and the network outcome of the
verification call are oracle inputs. -/
def handleSubscribe (st : Registry) (f : SubscribeForm) (now : Int)
    (challenge : String) (net : VerifyNet) : SubscribeOutcome × Registry :=
  if f.mode ≠ ModeSubscribe ∧ f.mode ≠ ModeUnsubscribe then (.invalidMode, st)
  else if f.topic = "" then (.missingTopic, st)
  else
    match urlParse f.callback with
    | none => (.badCallback, st)
    | some callbackUrl =>
      match leaseDurationOf f.lease with
      | none => (.badLease, st)
      | some leaseDuration =>
        let subscription : Subscription :=
          { callbackURL := callbackUrl
            topic := f.topic
            leaseDeadline := now + leaseDuration
            lease := leaseDuration
            secret := strBytes f.secret }
        match verifySubscriptionIntent challenge net with
        | .error _ => (.verifyFailed, st)
        | .ok _ =>
          if f.mode = ModeSubscribe then
            (.accepted, mapInsert st subscription.callbackURL.toString subscription)
          else
            (.accepted, mapErase st subscription.callbackURL.toString)

/-! ## Publish fan-out (hub.go handlePublish) -/

/-- The payload handlePublish sends: json.Marshal of the fixed two-field
record. -/
def messageData : List Nat := strBytes "\x7b\"meep\":\"meep\",\"mino\":\"mino\"\x7d"

/-- Per-subscriber network outcome during fan-out: building the POST can
fail, sending it can fail, or the subscriber answers with a status. -/
inductive DeliverOutcome where
  | reqError
  | transportError
  | status (code : Nat)
deriving DecidableEq

/-- Record of one iteration of the fan-out loop: the callback attempted,
the signature header attached (if any), whether a request reached the
network, and the network outcome. -/
structure Attempt where
  callback : String
  signature : Option String
  sent : Bool
  outcome : DeliverOutcome
deriving DecidableEq

/-- One iteration of the delivery loop in handlePublish: build the POST
for the callback (on failure, log and continue with nothing sent);
attach the X-Hub-Signature header sha256=hex(HMAC-SHA256(payload,
secret)) exactly when the secret is non-empty; send; log transport
errors and non-2xx statuses without aborting. -/
def deliverOne (msg : List Nat) (s : Subscription) (r : DeliverOutcome) : Attempt :=
  match r with
  | .reqError =>
      { callback := s.callbackURL.toString, signature := none, sent := false, outcome := .reqError }
  | r =>
      { callback := s.callbackURL.toString
        signature :=
          if s.secret.length > 0 then
            some ("sha256=" ++ hexEncode (hmacSHA256 s.secret msg))
          else none
        sent := true
        outcome := r }

/-- The delivery loop over the snapshot, one oracle outcome per
subscriber position; a failed iteration continues with the next. -/
def fanOut (msg : List Nat) : List Subscription → (Nat → DeliverOutcome) → Nat → List Attempt
  | [], _, _ => []
  | s :: rest, net, i => deliverOne msg s (net i) :: fanOut msg rest net (i + 1)

/-- The point-in-time copy of all current subscription values taken
under the read lock at the start of handlePublish. -/
def snapshot (st : Registry) : List Subscription := st.map Prod.snd

/-- What handlePublish produces: the response status written to the
publish caller and the trace of per-subscriber delivery attempts. -/
structure PublishResult where
  statusCode : Nat
  attempts : List Attempt
deriving DecidableEq

set_option linter.unusedVariables false in
/-- hub.go handlePublish: snapshot the registry, marshal the fixed
payload, deliver to every snapshot entry in order; the handler writes
nothing to the response, which net/http surfaces as status 200
regardless of per-subscriber outcomes. The topic parameter of the
request is received but never read. -/
def handlePublish (st : Registry) (topic : String) (net : Nat → DeliverOutcome) : PublishResult :=
  { statusCode := 200, attempts := fanOut messageData (snapshot st) net 0 }

/-! ## Concrete fixtures used by witness theorems -/

def subC2 : Subscription :=
  { callbackURL := ⟨"http://cb"⟩, topic := "news", leaseDeadline := 3600000000000,
    lease := 3600000000000, secret := strBytes "shh" }

def regC2 : Registry := [("http://cb", subC2)]

def netC2 : Nat → DeliverOutcome := fun _ => DeliverOutcome.status 200

def fC4 : SubscribeForm :=
  { callback := "http://cb", mode := "subscribe", topic := "t", lease := "", secret := "" }

def fC5a : SubscribeForm :=
  { callback := "http://cb", mode := "subscribe", topic := "news", lease := "", secret := "shh" }

def fC5b : SubscribeForm :=
  { callback := "http://cb", mode := "subscribe", topic := "blog", lease := "60", secret := "" }

def fC7 : SubscribeForm :=
  { callback := "http://cb", mode := "unsubscribe", topic := "news", lease := "", secret := "" }

def stC7 : Registry :=
  [("http://other", { callbackURL := ⟨"http://other"⟩, topic := "news",
                      leaseDeadline := 0, lease := 0, secret := [] })]

def fC8 : SubscribeForm :=
  { callback := "http://cb", mode := "meep", topic := "news", lease := "", secret := "" }

def fC9 : SubscribeForm :=
  { callback := "http://cb", mode := "subscribe", topic := "t", lease := "-7", secret := "" }

def fC10 : SubscribeForm :=
  { callback := "", mode := "subscribe", topic := "news", lease := "", secret := "" }

/-! ## Test vectors, checked by the kernel -/

-- FIPS 180-4 test vector for SHA-256.
set_option maxRecDepth 20000 in
example : hexEncode (sha256 (strBytes "abc")) =
    "ba7816bf8f01cfea414140de5dae2223b00361a396177a9cb410ff61f20015ad" := by decide

-- HMAC-SHA256 of the fixed publish payload under the key shh,
-- cross-checked against an independent implementation.
set_option maxRecDepth 20000 in
example : hexEncode (hmacSHA256 (strBytes "shh") messageData) =
    "390249842d9f550e381b51b7a1285cf5985148ac2cad7af0a72677f724056f02" := by decide

/-! ## Registry map lemmas -/

lemma countKey_eq_zero_of_not_mem (m : Registry) (k : String)
    (h : k ∉ m.map Prod.fst) : countKey m k = 0 := by
  induction m with
  | nil => rfl
  | cons p rest ih =>
    obtain ⟨k1, v1⟩ := p
    simp only [List.map_cons, List.mem_cons] at h
    push_neg at h
    rw [countKey, if_neg (fun hk : k1 = k => h.1 hk.symm), ih h.2]

lemma mapLookup_mapInsert (m : Registry) (k : String) (v : Subscription) :
    mapLookup (mapInsert m k v) k = some v := by
  induction m with
  | nil => simp [mapInsert, mapLookup]
  | cons p rest ih =>
    obtain ⟨k1, v1⟩ := p
    by_cases hk : k1 = k
    · simp [mapInsert, hk, mapLookup]
    · simp [mapInsert, hk, mapLookup, ih]

lemma countKey_mapInsert (m : Registry) (k : String) (v : Subscription)
    (h : RegistryWF m) : countKey (mapInsert m k v) k = 1 := by
  induction m with
  | nil => simp [mapInsert, countKey]
  | cons p rest ih =>
    obtain ⟨k1, v1⟩ := p
    rw [RegistryWF, List.map_cons, List.nodup_cons] at h
    by_cases hk : k1 = k
    · subst hk
      simp [mapInsert, countKey, countKey_eq_zero_of_not_mem rest k1 h.1]
    · simp [mapInsert, hk, countKey, ih h.2]

lemma mem_keys_mapInsert (m : Registry) (k x : String) (v : Subscription)
    (h : x ∈ (mapInsert m k v).map Prod.fst) : x = k ∨ x ∈ m.map Prod.fst := by
  induction m with
  | nil => simpa [mapInsert] using h
  | cons p rest ih =>
    obtain ⟨k1, v1⟩ := p
    by_cases hk : k1 = k
    · subst hk
      simpa [mapInsert] using h
    · simp only [mapInsert, if_neg hk, List.map_cons, List.mem_cons] at h ⊢
      rcases h with h | h
      · exact Or.inr (Or.inl h)
      · rcases ih h with h | h
        · exact Or.inl h
        · exact Or.inr (Or.inr h)

lemma registryWF_mapInsert (m : Registry) (k : String) (v : Subscription)
    (h : RegistryWF m) : RegistryWF (mapInsert m k v) := by
  induction m with
  | nil => simp [RegistryWF, mapInsert]
  | cons p rest ih =>
    obtain ⟨k1, v1⟩ := p
    rw [RegistryWF, List.map_cons, List.nodup_cons] at h
    by_cases hk : k1 = k
    · subst hk
      have heq : mapInsert ((k1, v1) :: rest) k1 v = (k1, v) :: rest := by
        simp [mapInsert]
      rw [RegistryWF, heq, List.map_cons, List.nodup_cons]
      exact h
    · rw [RegistryWF]
      simp only [mapInsert, if_neg hk, List.map_cons, List.nodup_cons]
      refine ⟨fun hmem => ?_, ih h.2⟩
      rcases mem_keys_mapInsert rest k k1 v hmem with h1 | h1
      · exact hk h1
      · exact h.1 h1

lemma countKey_mapErase (m : Registry) (k : String) :
    countKey (mapErase m k) k = 0 := by
  induction m with
  | nil => rfl
  | cons p rest ih =>
    obtain ⟨k1, v1⟩ := p
    by_cases hk : k1 = k
    · simp [mapErase, hk, ih]
    · simp [mapErase, hk, countKey, ih]

lemma mapLookup_mapErase (m : Registry) (k : String) :
    mapLookup (mapErase m k) k = none := by
  induction m with
  | nil => rfl
  | cons p rest ih =>
    obtain ⟨k1, v1⟩ := p
    by_cases hk : k1 = k
    · simp [mapErase, hk, ih]
    · simp [mapErase, hk, mapLookup, ih]

lemma mapErase_of_countKey_zero (m : Registry) (k : String)
    (h : countKey m k = 0) : mapErase m k = m := by
  induction m with
  | nil => rfl
  | cons p rest ih =>
    obtain ⟨k1, v1⟩ := p
    simp only [countKey, Nat.add_eq_zero] at h
    have hk : k1 ≠ k := by
      intro hk
      simp [if_pos hk] at h
    simp [mapErase, hk, ih h.2]

/-! ## Fan-out lemmas -/

lemma deliverOne_callback (msg : List Nat) (s : Subscription) (r : DeliverOutcome) :
    (deliverOne msg s r).callback = s.callbackURL.toString := by
  cases r <;> rfl

lemma fanOut_map_callback (msg : List Nat) (l : List Subscription)
    (net : Nat → DeliverOutcome) (i : Nat) :
    (fanOut msg l net i).map Attempt.callback = l.map fun s => s.callbackURL.toString := by
  induction l generalizing i with
  | nil => rfl
  | cons s rest ih =>
    simp only [fanOut, List.map_cons, deliverOne_callback, ih]

lemma fanOut_length (msg : List Nat) (l : List Subscription)
    (net : Nat → DeliverOutcome) (i : Nat) :
    (fanOut msg l net i).length = l.length := by
  induction l generalizing i with
  | nil => rfl
  | cons s rest ih => simp only [fanOut, List.length_cons, ih]

lemma fanOut_get? (msg : List Nat) (l : List Subscription)
    (net : Nat → DeliverOutcome) (i0 i : Nat) (s : Subscription)
    (h : l.get? i = some s) :
    (fanOut msg l net i0).get? i = some (deliverOne msg s (net (i0 + i))) := by
  induction l generalizing i0 i with
  | nil => simp at h
  | cons s1 rest ih =>
    cases i with
    | zero =>
      simp only [List.get?] at h
      cases h
      simp [fanOut]
    | succ j =>
      simp only [List.get?] at h
      have harith : i0 + 1 + j = i0 + (j + 1) := by omega
      have hrec := ih (i0 + 1) j h
      rw [harith] at hrec
      simp only [fanOut, List.get?, hrec]

/-! ## handleSubscribe path lemmas -/

lemma handleSubscribe_subscribe_ok (st : Registry) (f : SubscribeForm) (now : Int)
    (ch : String) (net : VerifyNet) (u : GoURL) (d : Int)
    (hm : f.mode = ModeSubscribe) (ht : f.topic ≠ "")
    (hu : urlParse f.callback = some u) (hd : leaseDurationOf f.lease = some d)
    (hok : verifySubscriptionIntent ch net = Except.ok ()) :
    handleSubscribe st f now ch net =
      (SubscribeOutcome.accepted,
       mapInsert st u.toString
         { callbackURL := u, topic := f.topic, leaseDeadline := now + d,
           lease := d, secret := strBytes f.secret }) := by
  simp [handleSubscribe, hm, ht, hu, hd, hok, ModeSubscribe, ModeUnsubscribe]

lemma handleSubscribe_unsubscribe_ok (st : Registry) (f : SubscribeForm) (now : Int)
    (ch : String) (net : VerifyNet) (u : GoURL)
    (hm : f.mode = ModeUnsubscribe) (ht : f.topic ≠ "")
    (hu : urlParse f.callback = some u) (hd : (leaseDurationOf f.lease).isSome)
    (hok : verifySubscriptionIntent ch net = Except.ok ()) :
    handleSubscribe st f now ch net = (SubscribeOutcome.accepted, mapErase st u.toString) := by
  obtain ⟨d, hd⟩ := Option.isSome_iff_exists.mp hd
  simp [handleSubscribe, hm, ht, hu, hd, hok, ModeSubscribe, ModeUnsubscribe]

lemma handleSubscribe_verify_error (st : Registry) (f : SubscribeForm) (now : Int)
    (ch : String) (net : VerifyNet)
    (hv : validForm f = true)
    (he : exceptOk (verifySubscriptionIntent ch net) = false) :
    handleSubscribe st f now ch net = (SubscribeOutcome.verifyFailed, st) := by
  simp only [validForm, Bool.and_eq_true, Bool.or_eq_true, beq_iff_eq, bne_iff_ne,
    Option.isSome_iff_exists] at hv
  obtain ⟨⟨⟨hm, ht⟩, u, hu⟩, d, hd⟩ := hv
  have herr : ∃ e, verifySubscriptionIntent ch net = Except.error e := by
    cases hver : verifySubscriptionIntent ch net with
    | ok a => rw [hver] at he; simp [exceptOk] at he
    | error e => exact ⟨e, rfl⟩
  obtain ⟨e, herr⟩ := herr
  rcases hm with hm | hm
  · simp [handleSubscribe, hm, ht, hu, hd, herr, ModeSubscribe, ModeUnsubscribe]
  · simp [handleSubscribe, hm, ht, hu, hd, herr, ModeSubscribe, ModeUnsubscribe]

lemma handleSubscribe_invalid (st : Registry) (f : SubscribeForm) (now : Int)
    (ch : String) (net : VerifyNet)
    (hv : validForm f = false) :
    (handleSubscribe st f now ch net).1.statusCode = 400 ∧
    (handleSubscribe st f now ch net).2 = st ∧
    (∀ (ch2 : String) (net2 : VerifyNet),
      handleSubscribe st f now ch net = handleSubscribe st f now ch2 net2) := by
  simp only [validForm, Bool.and_eq_false_iff, Bool.or_eq_false_iff, beq_eq_false_iff_ne,
    bne_eq_false_iff_eq] at hv
  rcases hv with ((⟨hm1, hm2⟩ | ht) | hu) | hd
  · refine ⟨?_, ?_, fun ch2 net2 => ?_⟩ <;>
      simp [handleSubscribe, hm1, hm2, SubscribeOutcome.statusCode]
  · by_cases hm : f.mode ≠ ModeSubscribe ∧ f.mode ≠ ModeUnsubscribe
    · refine ⟨?_, ?_, fun ch2 net2 => ?_⟩ <;>
        simp [handleSubscribe, hm, SubscribeOutcome.statusCode]
    · refine ⟨?_, ?_, fun ch2 net2 => ?_⟩ <;>
        simp [handleSubscribe, hm, ht, SubscribeOutcome.statusCode]
  · have hu2 : urlParse f.callback = none := by
      cases hx : urlParse f.callback with
      | none => rfl
      | some u => rw [hx] at hu; simp at hu
    by_cases hm : f.mode ≠ ModeSubscribe ∧ f.mode ≠ ModeUnsubscribe
    · refine ⟨?_, ?_, fun ch2 net2 => ?_⟩ <;>
        simp [handleSubscribe, hm, SubscribeOutcome.statusCode]
    · by_cases ht : f.topic = ""
      · refine ⟨?_, ?_, fun ch2 net2 => ?_⟩ <;>
          simp [handleSubscribe, hm, ht, SubscribeOutcome.statusCode]
      · refine ⟨?_, ?_, fun ch2 net2 => ?_⟩ <;>
          simp [handleSubscribe, hm, ht, hu2, SubscribeOutcome.statusCode]
  · have hd2 : leaseDurationOf f.lease = none := by
      cases hx : leaseDurationOf f.lease with
      | none => rfl
      | some d => rw [hx] at hd; simp at hd
    by_cases hm : f.mode ≠ ModeSubscribe ∧ f.mode ≠ ModeUnsubscribe
    · refine ⟨?_, ?_, fun ch2 net2 => ?_⟩ <;>
        simp [handleSubscribe, hm, SubscribeOutcome.statusCode]
    · by_cases ht : f.topic = ""
      · refine ⟨?_, ?_, fun ch2 net2 => ?_⟩ <;>
          simp [handleSubscribe, hm, ht, SubscribeOutcome.statusCode]
      · cases hu : urlParse f.callback with
        | none =>
          refine ⟨?_, ?_, fun ch2 net2 => ?_⟩ <;>
            simp [handleSubscribe, hm, ht, hu, SubscribeOutcome.statusCode]
        | some u =>
          refine ⟨?_, ?_, fun ch2 net2 => ?_⟩ <;>
            simp [handleSubscribe, hm, ht, hu, hd2, SubscribeOutcome.statusCode]

lemma verify_ok_of_registry_changed (st : Registry) (f : SubscribeForm) (now : Int)
    (ch : String) (net : VerifyNet)
    (h : (handleSubscribe st f now ch net).2 ≠ st) :
    verifySubscriptionIntent ch net = Except.ok () := by
  by_contra hne
  apply h
  unfold handleSubscribe
  split
  · rfl
  split
  · rfl
  cases hu : urlParse f.callback with
  | none => rfl
  | some u =>
    cases hd : leaseDurationOf f.lease with
    | none => rfl
    | some d =>
      cases hver : verifySubscriptionIntent ch net with
      | error e => rfl
      | ok a => cases a; exact absurd hver hne

/-! ## wrap64 lemmas -/

lemma wrap64_eq_self (x : Int) (h1 : -9223372036854775808 ≤ x)
    (h2 : x ≤ 9223372036854775807) : wrap64 x = x := by
  unfold wrap64
  omega

lemma wrap64_ne_of_gt (x : Int) (h : 9223372036854775807 < x) : wrap64 x ≠ x := by
  unfold wrap64
  omega

lemma wrap64_ne_of_lt (x : Int) (h : x < -9223372036854775808) : wrap64 x ≠ x := by
  unfold wrap64
  omega

/-! ## Claim theorems -/

/-- C1: the publish delivery loop iterates a snapshot of all current
subscriptions and attempts delivery to every one of them, independent of
the topic parameter of the publish request and of the stored topics. -/
theorem publish_broadcast_ignores_topic (st : Registry) (t1 t2 : String)
    (net : Nat → DeliverOutcome) :
    handlePublish st t1 net = handlePublish st t2 net ∧
    (handlePublish st t1 net).attempts.map Attempt.callback =
      (snapshot st).map (fun s => s.callbackURL.toString) :=
  ⟨rfl, fanOut_map_callback messageData (snapshot st) net 0⟩

/-- C3: verification succeeds exactly when a body is read and equals the
challenge token byte for byte; request, transport and read failures and
any byte mismatch fail it, and the function consumes a single network
round trip, so no retry happens. -/
theorem verify_ok_iff_exact_echo (challenge : String) (net : VerifyNet) :
    verifySubscriptionIntent challenge net = Except.ok () ↔
      net = VerifyNet.body (strBytes challenge) := by
  cases net with
  | reqError => simp [verifySubscriptionIntent]
  | transportError => simp [verifySubscriptionIntent]
  | readError => simp [verifySubscriptionIntent]
  | body b =>
    simp only [verifySubscriptionIntent]
    split
    · rename_i hb
      simp [hb]
    · rename_i hb
      simp only [VerifyNet.body.injEq]
      constructor
      · intro h
        exact absurd h (by simp)
      · intro h
        exact absurd h.symm hb

/-- C2: every subscription in the snapshot gets exactly the delivery
attempt built by the loop body, and that attempt carries the signature
header sha256= followed by the lowercase hex HMAC-SHA256 of the payload
keyed by the secret exactly when the secret is non-empty (and an
outbound request exists at all); with an empty secret no signature
header is attached. -/
theorem publish_signature_header (st : Registry) (t : String)
    (net : Nat → DeliverOutcome) (i : Nat) (s : Subscription)
    (h : (snapshot st).get? i = some s) :
    (handlePublish st t net).attempts.get? i = some (deliverOne messageData s (net i)) ∧
    (deliverOne messageData s (net i)).signature =
      (if net i ≠ DeliverOutcome.reqError ∧ s.secret.length > 0 then
        some ("sha256=" ++ hexEncode (hmacSHA256 s.secret messageData))
      else none) := by
  constructor
  · have hfan := fanOut_get? messageData (snapshot st) net 0 i s h
    simpa [handlePublish] using hfan
  · cases hr : net i with
    | reqError => simp [deliverOne]
    | transportError => by_cases hs : s.secret.length > 0 <;> simp [deliverOne, hs]
    | status c => by_cases hs : s.secret.length > 0 <;> simp [deliverOne, hs]

/-- Witness for C2 at a concrete one-subscriber registry with secret shh. -/
theorem publish_signature_header_witness :
    (snapshot regC2).get? 0 = some subC2 ∧
    ((handlePublish regC2 "news" netC2).attempts.get? 0 =
        some (deliverOne messageData subC2 (netC2 0)) ∧
     (deliverOne messageData subC2 (netC2 0)).signature =
       (if netC2 0 ≠ DeliverOutcome.reqError ∧ subC2.secret.length > 0 then
         some ("sha256=" ++ hexEncode (hmacSHA256 subC2.secret messageData))
       else none)) :=
  ⟨by decide, publish_signature_header regC2 "news" netC2 0 subC2 (by decide)⟩

/-- C6: per-subscriber failure isolation: which callbacks receive a
delivery attempt does not depend on any per-subscriber outcome, every
snapshot entry yields an attempt, and the publish caller always gets the
single success status 200. -/
theorem publish_failure_isolation (st : Registry) (t : String)
    (net1 net2 : Nat → DeliverOutcome) :
    (handlePublish st t net1).statusCode = 200 ∧
    (handlePublish st t net1).attempts.length = (snapshot st).length ∧
    (handlePublish st t net1).attempts.map Attempt.callback =
      (handlePublish st t net2).attempts.map Attempt.callback := by
  refine ⟨rfl, fanOut_length messageData (snapshot st) net1 0, ?_⟩
  show (fanOut messageData (snapshot st) net1 0).map Attempt.callback =
    (fanOut messageData (snapshot st) net2 0).map Attempt.callback
  rw [fanOut_map_callback, fanOut_map_callback]

/-- C4: the registry is changed only when the verifier succeeded, and on
a verification failure of a validated request the handler answers with
the server error 500 and leaves the registry untouched. -/
theorem registry_mutation_requires_verification (st : Registry) (f : SubscribeForm)
    (now : Int) (ch : String) (net : VerifyNet) :
    ((handleSubscribe st f now ch net).2 ≠ st →
      verifySubscriptionIntent ch net = Except.ok ()) ∧
    (validForm f = true → exceptOk (verifySubscriptionIntent ch net) = false →
      (handleSubscribe st f now ch net).1.statusCode = 500 ∧
      handleSubscribe st f now ch net = (SubscribeOutcome.verifyFailed, st)) :=
  ⟨verify_ok_of_registry_changed st f now ch net,
   fun hv he =>
     ⟨by rw [handleSubscribe_verify_error st f now ch net hv he]; rfl,
      handleSubscribe_verify_error st f now ch net hv he⟩⟩

/-- Witness for C4 at a concrete validated request whose verification
transport fails. -/
theorem registry_mutation_requires_verification_witness :
    validForm fC4 = true ∧
    exceptOk (verifySubscriptionIntent "c" VerifyNet.transportError) = false ∧
    ((handleSubscribe [] fC4 0 "c" VerifyNet.transportError).1.statusCode = 500 ∧
     handleSubscribe [] fC4 0 "c" VerifyNet.transportError = (SubscribeOutcome.verifyFailed, [])) :=
  ⟨by decide, by decide,
   (registry_mutation_requires_verification [] fC4 0 "c" VerifyNet.transportError).2
     (by decide) (by decide)⟩

/-- C5: a verified subscribe leaves exactly one registry entry keyed by
the callback URL, carrying the requested topic and lease (one hour when
the lease field is absent), and a second verified subscribe for the same
callback URL replaces it, leaving exactly one entry with the parameters
of the second request. -/
theorem subscribe_upserts_single_entry (st : Registry) (f1 f2 : SubscribeForm)
    (now1 now2 : Int) (ch1 ch2 : String) (net1 net2 : VerifyNet) (u : GoURL) (d1 d2 : Int)
    (hwf : RegistryWF st)
    (hm1 : f1.mode = ModeSubscribe) (ht1 : f1.topic ≠ "")
    (hu1 : urlParse f1.callback = some u) (hd1 : leaseDurationOf f1.lease = some d1)
    (hok1 : verifySubscriptionIntent ch1 net1 = Except.ok ())
    (hm2 : f2.mode = ModeSubscribe) (ht2 : f2.topic ≠ "")
    (hu2 : urlParse f2.callback = some u) (hd2 : leaseDurationOf f2.lease = some d2)
    (hok2 : verifySubscriptionIntent ch2 net2 = Except.ok ()) :
    (handleSubscribe st f1 now1 ch1 net1).1 = SubscribeOutcome.accepted ∧
    countKey (handleSubscribe st f1 now1 ch1 net1).2 u.toString = 1 ∧
    mapLookup (handleSubscribe st f1 now1 ch1 net1).2 u.toString =
      some { callbackURL := u, topic := f1.topic, leaseDeadline := now1 + d1,
             lease := d1, secret := strBytes f1.secret } ∧
    (f1.lease = "" → d1 = 3600000000000) ∧
    countKey (handleSubscribe (handleSubscribe st f1 now1 ch1 net1).2 f2 now2 ch2 net2).2
      u.toString = 1 ∧
    mapLookup (handleSubscribe (handleSubscribe st f1 now1 ch1 net1).2 f2 now2 ch2 net2).2
      u.toString =
      some { callbackURL := u, topic := f2.topic, leaseDeadline := now2 + d2,
             lease := d2, secret := strBytes f2.secret } := by
  rw [handleSubscribe_subscribe_ok st f1 now1 ch1 net1 u d1 hm1 ht1 hu1 hd1 hok1]
  have hwf1 := registryWF_mapInsert st u.toString
    { callbackURL := u, topic := f1.topic, leaseDeadline := now1 + d1,
      lease := d1, secret := strBytes f1.secret } hwf
  rw [handleSubscribe_subscribe_ok _ f2 now2 ch2 net2 u d2 hm2 ht2 hu2 hd2 hok2]
  refine ⟨rfl, ?_, ?_, ?_, ?_, ?_⟩
  · exact countKey_mapInsert st u.toString _ hwf
  · exact mapLookup_mapInsert st u.toString _
  · intro hempty
    rw [leaseDurationOf, if_pos hempty] at hd1
    exact (Option.some_injective _ hd1).symm
  · exact countKey_mapInsert _ u.toString _ hwf1
  · exact mapLookup_mapInsert _ u.toString _

/-- Witness for C5: two concrete verified subscribes for the same
callback URL, one hour default lease then a 60 second lease. -/
theorem subscribe_upserts_single_entry_witness :
    (RegistryWF [] ∧ fC5a.mode = ModeSubscribe ∧ fC5a.topic ≠ "" ∧
     urlParse fC5a.callback = some ⟨"http://cb"⟩ ∧
     leaseDurationOf fC5a.lease = some 3600000000000 ∧
     verifySubscriptionIntent "c1" (VerifyNet.body (strBytes "c1")) = Except.ok () ∧
     fC5b.mode = ModeSubscribe ∧ fC5b.topic ≠ "" ∧
     urlParse fC5b.callback = some ⟨"http://cb"⟩ ∧
     leaseDurationOf fC5b.lease = some 60000000000 ∧
     verifySubscriptionIntent "c2" (VerifyNet.body (strBytes "c2")) = Except.ok ()) ∧
    ((handleSubscribe [] fC5a 0 "c1" (VerifyNet.body (strBytes "c1"))).1 = SubscribeOutcome.accepted ∧
     countKey (handleSubscribe [] fC5a 0 "c1" (VerifyNet.body (strBytes "c1"))).2
       (GoURL.toString ⟨"http://cb"⟩) = 1 ∧
     mapLookup (handleSubscribe [] fC5a 0 "c1" (VerifyNet.body (strBytes "c1"))).2
       (GoURL.toString ⟨"http://cb"⟩) =
       some { callbackURL := ⟨"http://cb"⟩, topic := fC5a.topic, leaseDeadline := 0 + 3600000000000,
              lease := 3600000000000, secret := strBytes fC5a.secret } ∧
     (fC5a.lease = "" → (3600000000000 : Int) = 3600000000000) ∧
     countKey (handleSubscribe (handleSubscribe [] fC5a 0 "c1" (VerifyNet.body (strBytes "c1"))).2
       fC5b 5 "c2" (VerifyNet.body (strBytes "c2"))).2 (GoURL.toString ⟨"http://cb"⟩) = 1 ∧
     mapLookup (handleSubscribe (handleSubscribe [] fC5a 0 "c1" (VerifyNet.body (strBytes "c1"))).2
       fC5b 5 "c2" (VerifyNet.body (strBytes "c2"))).2 (GoURL.toString ⟨"http://cb"⟩) =
       some { callbackURL := ⟨"http://cb"⟩, topic := fC5b.topic, leaseDeadline := 5 + 60000000000,
              lease := 60000000000, secret := strBytes fC5b.secret }) :=
  ⟨⟨by decide, by decide, by decide, by decide, by decide, by decide,
    by decide, by decide, by decide, by decide, by decide⟩,
   subscribe_upserts_single_entry [] fC5a fC5b 0 5 "c1" "c2"
     (VerifyNet.body (strBytes "c1")) (VerifyNet.body (strBytes "c2"))
     ⟨"http://cb"⟩ 3600000000000 60000000000
     (by decide) (by decide) (by decide) (by decide) (by decide) (by decide)
     (by decide) (by decide) (by decide) (by decide) (by decide)⟩

/-- C7: a verified unsubscribe removes any entry stored under the
callback URL (the registry becomes the erasure of that key), still
answers accepted, and is a no-op on a registry that holds no entry for
that key. -/
theorem unsubscribe_removes_entry (st : Registry) (f : SubscribeForm) (now : Int)
    (ch : String) (net : VerifyNet) (u : GoURL)
    (hm : f.mode = ModeUnsubscribe) (ht : f.topic ≠ "")
    (hu : urlParse f.callback = some u) (hd : (leaseDurationOf f.lease).isSome)
    (hok : verifySubscriptionIntent ch net = Except.ok ()) :
    (handleSubscribe st f now ch net).1 = SubscribeOutcome.accepted ∧
    (handleSubscribe st f now ch net).2 = mapErase st u.toString ∧
    countKey (handleSubscribe st f now ch net).2 u.toString = 0 ∧
    mapLookup (handleSubscribe st f now ch net).2 u.toString = none ∧
    (countKey st u.toString = 0 → (handleSubscribe st f now ch net).2 = st) := by
  rw [handleSubscribe_unsubscribe_ok st f now ch net u hm ht hu hd hok]
  exact ⟨rfl, rfl, countKey_mapErase st u.toString, mapLookup_mapErase st u.toString,
    fun h0 => mapErase_of_countKey_zero st u.toString h0⟩

/-- Witness for C7: a verified unsubscribe against a registry that has
no entry for the callback leaves the registry unchanged and answers
accepted. -/
theorem unsubscribe_removes_entry_witness :
    (fC7.mode = ModeUnsubscribe ∧ fC7.topic ≠ "" ∧
     urlParse fC7.callback = some ⟨"http://cb"⟩ ∧
     (leaseDurationOf fC7.lease).isSome ∧
     verifySubscriptionIntent "c" (VerifyNet.body (strBytes "c")) = Except.ok () ∧
     countKey stC7 (GoURL.toString ⟨"http://cb"⟩) = 0) ∧
    ((handleSubscribe stC7 fC7 0 "c" (VerifyNet.body (strBytes "c"))).1 = SubscribeOutcome.accepted ∧
     (handleSubscribe stC7 fC7 0 "c" (VerifyNet.body (strBytes "c"))).2 =
       mapErase stC7 (GoURL.toString ⟨"http://cb"⟩) ∧
     countKey (handleSubscribe stC7 fC7 0 "c" (VerifyNet.body (strBytes "c"))).2
       (GoURL.toString ⟨"http://cb"⟩) = 0 ∧
     mapLookup (handleSubscribe stC7 fC7 0 "c" (VerifyNet.body (strBytes "c"))).2
       (GoURL.toString ⟨"http://cb"⟩) = none ∧
     (countKey stC7 (GoURL.toString ⟨"http://cb"⟩) = 0 →
       (handleSubscribe stC7 fC7 0 "c" (VerifyNet.body (strBytes "c"))).2 = stC7)) :=
  ⟨⟨by decide, by decide, by decide, by decide, by decide, by decide⟩,
   unsubscribe_removes_entry stC7 fC7 0 "c" (VerifyNet.body (strBytes "c")) ⟨"http://cb"⟩
     (by decide) (by decide) (by decide) (by decide) (by decide)⟩

/-- C8: a request failing any of the four input validations (bad mode,
empty topic, unparseable callback, unparseable lease) gets a 400 client
error, the registry is untouched, and the result does not depend on the
challenge or on the verification network outcome, so the verifier is
never consulted. -/
theorem invalid_request_rejected_before_verifier (st : Registry) (f : SubscribeForm)
    (now : Int) (ch1 ch2 : String) (net1 net2 : VerifyNet)
    (hv : validForm f = false) :
    (handleSubscribe st f now ch1 net1).1.statusCode = 400 ∧
    (handleSubscribe st f now ch1 net1).2 = st ∧
    handleSubscribe st f now ch1 net1 = handleSubscribe st f now ch2 net2 := by
  obtain ⟨h1, h2, h3⟩ := handleSubscribe_invalid st f now ch1 net1 hv
  exact ⟨h1, h2, h3 ch2 net2⟩

/-- Witness for C8 at a concrete request with an invalid mode value. -/
theorem invalid_request_rejected_before_verifier_witness :
    validForm fC8 = false ∧
    ((handleSubscribe [] fC8 0 "c1" VerifyNet.transportError).1.statusCode = 400 ∧
     (handleSubscribe [] fC8 0 "c1" VerifyNet.transportError).2 = [] ∧
     handleSubscribe [] fC8 0 "c1" VerifyNet.transportError =
       handleSubscribe [] fC8 0 "c2" (VerifyNet.body (strBytes "c2"))) :=
  ⟨by decide,
   invalid_request_rejected_before_verifier [] fC8 0 "c1" "c2" VerifyNet.transportError
     (VerifyNet.body (strBytes "c2")) (by decide)⟩

/-- C9 counterexample: the claim says a negative lease_seconds value is
stored unchanged and yields a lease deadline at or before now; for
lease_seconds = -10000000000 the int64 multiplication by one second
wraps to +8446744073709551616 nanoseconds, so the stored lease is not
the requested value and the deadline lies strictly after now. -/
theorem lease_negative_value_counterexample :
    atoi "-10000000000" = some (-10000000000) ∧
    (handleSubscribe []
      { callback := "http://cb", mode := "subscribe", topic := "t",
        lease := "-10000000000", secret := "" }
      0 "c" (VerifyNet.body (strBytes "c"))).1 = SubscribeOutcome.accepted ∧
    mapLookup (handleSubscribe []
      { callback := "http://cb", mode := "subscribe", topic := "t",
        lease := "-10000000000", secret := "" }
      0 "c" (VerifyNet.body (strBytes "c"))).2 "http://cb" =
      some { callbackURL := ⟨"http://cb"⟩, topic := "t",
             leaseDeadline := 8446744073709551616,
             lease := 8446744073709551616, secret := [] } ∧
    ¬((8446744073709551616 : Int) = -10000000000 * 1000000000) ∧
    ¬((8446744073709551616 : Int) ≤ 0) := by
  refine ⟨by decide, by decide, by decide, by decide, by decide⟩

/-- C9 (amended): a lease_seconds field that Atoi parses as n is stored
as wrap64(n * one second) in signed 64-bit nanosecond arithmetic; zero
and negative values down to about -9.2 billion are stored unchanged with
a deadline at or before now, while magnitudes above about 9.2 billion
seconds in either direction overflow, so the stored lease differs from
the requested number of seconds. -/
theorem lease_seconds_int64_arithmetic (st : Registry) (f : SubscribeForm)
    (now : Int) (ch : String) (net : VerifyNet) (u : GoURL) (n : Int)
    (hm : f.mode = ModeSubscribe) (ht : f.topic ≠ "")
    (hu : urlParse f.callback = some u)
    (hne : f.lease ≠ "") (hn : atoi f.lease = some n)
    (hok : verifySubscriptionIntent ch net = Except.ok ()) :
    mapLookup (handleSubscribe st f now ch net).2 u.toString =
      some { callbackURL := u, topic := f.topic,
             leaseDeadline := now + wrap64 (n * 1000000000),
             lease := wrap64 (n * 1000000000), secret := strBytes f.secret } ∧
    (-9223372037 < n ∧ n ≤ 0 →
      wrap64 (n * 1000000000) = n * 1000000000 ∧
      now + wrap64 (n * 1000000000) ≤ now) ∧
    (9223372036 < n → wrap64 (n * 1000000000) ≠ n * 1000000000) ∧
    (n < -9223372036 → wrap64 (n * 1000000000) ≠ n * 1000000000) := by
  have hd : leaseDurationOf f.lease = some (wrap64 (n * 1000000000)) := by
    rw [leaseDurationOf, if_neg hne, hn]
  rw [handleSubscribe_subscribe_ok st f now ch net u (wrap64 (n * 1000000000))
    hm ht hu hd hok]
  refine ⟨mapLookup_mapInsert st u.toString _, ?_, ?_, ?_⟩
  · rintro ⟨hlo, hhi⟩
    have heq : wrap64 (n * 1000000000) = n * 1000000000 :=
      wrap64_eq_self _ (by omega) (by omega)
    exact ⟨heq, by omega⟩
  · intro hbig
    exact wrap64_ne_of_gt _ (by omega)
  · intro hsmall
    exact wrap64_ne_of_lt _ (by omega)

/-- Witness for the amended C9 at the concrete parsed value -7, stored
unchanged with a deadline before now. -/
theorem lease_seconds_int64_arithmetic_witness :
    (fC9.mode = ModeSubscribe ∧ fC9.topic ≠ "" ∧
     urlParse fC9.callback = some ⟨"http://cb"⟩ ∧ fC9.lease ≠ "" ∧
     atoi fC9.lease = some (-7) ∧
     verifySubscriptionIntent "c" (VerifyNet.body (strBytes "c")) = Except.ok ()) ∧
    (mapLookup (handleSubscribe [] fC9 0 "c" (VerifyNet.body (strBytes "c"))).2
       (GoURL.toString ⟨"http://cb"⟩) =
       some { callbackURL := ⟨"http://cb"⟩, topic := fC9.topic,
              leaseDeadline := 0 + wrap64 (-7 * 1000000000),
              lease := wrap64 (-7 * 1000000000), secret := strBytes fC9.secret } ∧
     (-9223372037 < (-7 : Int) ∧ (-7 : Int) ≤ 0 →
       wrap64 (-7 * 1000000000) = -7 * 1000000000 ∧
       0 + wrap64 (-7 * 1000000000) ≤ (0 : Int)) ∧
     (9223372036 < (-7 : Int) → wrap64 (-7 * 1000000000) ≠ -7 * 1000000000) ∧
     ((-7 : Int) < -9223372036 → wrap64 (-7 * 1000000000) ≠ -7 * 1000000000)) :=
  ⟨⟨by decide, by decide, by decide, by decide, by decide, by decide⟩,
   lease_seconds_int64_arithmetic [] fC9 0 "c" (VerifyNet.body (strBytes "c"))
     ⟨"http://cb"⟩ (-7) (by decide) (by decide) (by decide) (by decide) (by decide) (by decide)⟩

/-- C10: the empty callback string parses successfully as a URL, so a
subscribe request with an empty callback passes input validation and
proceeds to intent verification: the outcome is decided by the
verifier, never by the URL-parse error branch. -/
theorem empty_callback_reaches_verification (st : Registry) (f : SubscribeForm)
    (now : Int) (ch : String) (net : VerifyNet)
    (hc : f.callback = "") (hm : f.mode = ModeSubscribe) (ht : f.topic ≠ "")
    (hd : (leaseDurationOf f.lease).isSome) :
    urlParse "" = some ⟨""⟩ ∧
    (handleSubscribe st f now ch net).1 ≠ SubscribeOutcome.badCallback ∧
    (handleSubscribe st f now ch net).1 =
      (if exceptOk (verifySubscriptionIntent ch net) = true then SubscribeOutcome.accepted
       else SubscribeOutcome.verifyFailed) := by
  have hu : urlParse f.callback = some ⟨""⟩ := by rw [hc]; rfl
  obtain ⟨d, hd2⟩ := Option.isSome_iff_exists.mp hd
  cases hver : verifySubscriptionIntent ch net with
  | ok a =>
    cases a
    rw [handleSubscribe_subscribe_ok st f now ch net ⟨""⟩ d hm ht hu hd2 hver]
    exact ⟨rfl, by simp, by simp [exceptOk]⟩
  | error e =>
    have hvf : validForm f = true := by
      simp [validForm, hm, hu, hd2, ModeSubscribe, ModeUnsubscribe, ht]
    have he : exceptOk (verifySubscriptionIntent ch net) = false := by
      rw [hver]; rfl
    rw [handleSubscribe_verify_error st f now ch net hvf he]
    rw [if_neg (by simp [exceptOk])]
    exact ⟨rfl, by simp, rfl⟩

/-- Witness for C10: a subscribe request with an empty callback and a
failing verification transport reaches the verifier and gets its
server-error outcome, not a validation error. -/
theorem empty_callback_reaches_verification_witness :
    (fC10.callback = "" ∧ fC10.mode = ModeSubscribe ∧ fC10.topic ≠ "" ∧
     (leaseDurationOf fC10.lease).isSome) ∧
    (urlParse "" = some ⟨""⟩ ∧
     (handleSubscribe [] fC10 0 "c" VerifyNet.transportError).1 ≠ SubscribeOutcome.badCallback ∧
     (handleSubscribe [] fC10 0 "c" VerifyNet.transportError).1 =
       (if exceptOk (verifySubscriptionIntent "c" VerifyNet.transportError) = true
        then SubscribeOutcome.accepted else SubscribeOutcome.verifyFailed)) :=
  ⟨⟨by decide, by decide, by decide, by decide⟩,
   empty_callback_reaches_verification [] fC10 0 "c" VerifyNet.transportError
     (by decide) (by decide) (by decide) (by decide)⟩
